import Mathlib

/-!
Verification of the JAKA Zu5s TCP client (`src/jaka_control/jkrc.py`).

The development shallowly embeds the parts of `jkrc.py` that the claims
touch: the fast status scanner `_parse_error_code_fast`, the structured
reply view `_parse_results` (Python `json.loads`) together with the status
extraction of `_process`, the typed command surface (`power_on`, `servo_j`,
`get_joint_position`, `joint_move_with_acc`, `end_move`,
`linear_move_extend`), and the socket lifecycle (`__init__`, `login`,
`_close`, `logout`, `__del__`, `_wait_reply`).

Python strings are modelled as `List Char`; Python exceptions as an
explicit `Except PyExn` result; Python numeric scalars as an inductive
`PyNum` covering `int` (exact) and `float` (modelled as `ℚ`, exact for the
finite-decimal values appearing in this development).
-/

/-- Exceptions that the embedded code can raise.  `int()` raises
`ValueError` on a malformed string and `TypeError` on a non-numeric value;
both failure modes of the conversion are folded into `valueError` here,
and the original exception of a failed `connect` is folded into
`osError`. -/
inductive PyExn where
  | assertError (msg : String)
  | valueError
  | keyError (k : String)
  | jsonDecodeError
  | typeError
  | unicodeDecodeError
  | osError
deriving DecidableEq, Repr

/-- Python values appearing in the second component of the library's
result tuples: the raw reply text, or a list of parsed floats. -/
inductive PyVal where
  | str (s : List Char)
  | floatList (qs : List ℚ)
deriving DecidableEq, Repr

/-- The result tuples of the typed command surface:
`Tuple[int]` (success, `(ec,)`) or `Tuple[int, Any]` (`(ec, payload)`). -/
inductive Ret where
  | one (ec : Int)
  | two (ec : Int) (v : PyVal)
deriving DecidableEq, Repr

/-- Observable outcome of one typed operation against a given reply:
the list of texts written to the stream, and the returned value or the
raised exception. -/
structure OpOut where
  writes : List String
  result : Except PyExn Ret
deriving Repr

/-! ## Python string primitives -/

/-- Characters stripped by Python `str.strip()` (the ASCII whitespace
relevant to `int()`/`float()` conversion). -/
def isPySpace (c : Char) : Bool :=
  c = ' ' || c = '\t' || c = '\n' || c = '\r' || c = '\x0b' || c = '\x0c'

/-- `str.strip()`. -/
def stripPySpaces (l : List Char) : List Char :=
  ((l.dropWhile isPySpace).reverse.dropWhile isPySpace).reverse

/-- Worker for Python `str.find`: index of the first occurrence of
`needle` at or after position `i`, or `none`. -/
def pyFindAux (needle : List Char) : List Char → Nat → Option Nat
  | [], i => if needle.isEmpty then some i else none
  | c :: t, i =>
    if needle.isPrefixOf (c :: t) then some i else pyFindAux needle t (i + 1)

/-- Python `haystack.find(needle)`: first index, or `-1` if absent. -/
def pyFind (hay needle : List Char) : Int :=
  match pyFindAux needle hay 0 with
  | none => -1
  | some i => (i : Int)

/-- Python slice `l[:k]` with a possibly negative bound, as used by
`valueRecv[j:][:k]` in `_parse_error_code_fast`. -/
def pySliceTo (l : List Char) (k : Int) : List Char :=
  if 0 ≤ k then l.take k.toNat else l.take (l.length - k.natAbs)

/-- Numeric value of a digit string (most significant first). -/
def digitsVal (ds : List Char) : Nat :=
  ds.foldl (fun a c => 10 * a + (c.toNat - 48)) 0

/-- Digit-run check used by the `int()`/`float()` models: nonempty and
all decimal digits. -/
def digitsOpt (ds : List Char) : Option Nat :=
  if !ds.isEmpty && ds.all Char.isDigit then some (digitsVal ds) else none

/-- Sign-and-digits core of Python `int(str)` (after stripping).
Underscore digit separators are not modelled; no claim exercises them. -/
def pyIntCore (l : List Char) : Option Int :=
  match l with
  | [] => none
  | c :: rest =>
    if c = '-' then (digitsOpt rest).map (fun n => -(n : Int))
    else if c = '+' then (digitsOpt rest).map (fun n => (n : Int))
    else (digitsOpt l).map (fun n => (n : Int))

/-- Python `int(str)`: strips whitespace, allows one sign, then a
nonempty digit run; `none` models the raised `ValueError`. -/
def pyInt (l : List Char) : Option Int :=
  pyIntCore (stripPySpaces l)

/-- Python `s.split(sep)` for a one-character separator: split at every
occurrence, never collapsing (`"".split(",") = [""]`). -/
def pySplitChar : List Char → Char → List (List Char)
  | [], _ => [[]]
  | c :: t, sep =>
    match pySplitChar t sep with
    | [] => [[c]]
    | h :: rt => if c = sep then [] :: h :: rt else (c :: h) :: rt

/-! ## Python `float(str)` (model over `ℚ`)

Exact for the finite-decimal literals the replies carry; the special
values `inf`/`nan` are not modelled (no claim exercises them). -/

/-- Exponent digit run of a float literal: must consume the whole rest. -/
def expDigits (ds : List Char) : Option Nat := digitsOpt ds

/-- Optional exponent suffix of a Python float literal. -/
def pyFloatExp (base : ℚ) (l : List Char) : Option ℚ :=
  match l with
  | [] => some base
  | c :: rest =>
    if c = 'e' ∨ c = 'E' then
      match rest with
      | '+' :: ds => (expDigits ds).map (fun n => base * (10 : ℚ) ^ n)
      | '-' :: ds => (expDigits ds).map (fun n => base / (10 : ℚ) ^ n)
      | ds => (expDigits ds).map (fun n => base * (10 : ℚ) ^ n)
    else none

/-- Unsigned body of a Python float literal: `digits`, `digits.`,
`digits.digits` or `.digits`, then an optional exponent. -/
def pyFloatBody (l : List Char) : Option ℚ :=
  let ip := l.takeWhile Char.isDigit
  let r1 := l.dropWhile Char.isDigit
  match r1 with
  | '.' :: r2 =>
    let fp := r2.takeWhile Char.isDigit
    let r3 := r2.dropWhile Char.isDigit
    if ip.isEmpty && fp.isEmpty then none
    else pyFloatExp ((digitsVal ip : ℚ) + (digitsVal fp : ℚ) / (10 : ℚ) ^ fp.length) r3
  | _ => if ip.isEmpty then none else pyFloatExp (digitsVal ip : ℚ) r1

/-- Python `float(str)`; `none` models the raised `ValueError`. -/
def pyFloat (l : List Char) : Option ℚ :=
  match stripPySpaces l with
  | [] => none
  | c :: rest =>
    if c = '-' then (pyFloatBody rest).map (fun q => -q)
    else if c = '+' then pyFloatBody rest
    else pyFloatBody (c :: rest)

/-! ## `RC._parse_error_code_fast` -/

/-- The literal marker `'"errorCode": "'` scanned for by
`_parse_error_code_fast`. -/
def ecMarker : List Char := "\"errorCode\": \"".toList

/--
`RC._parse_error_code_fast(valueRecv)`:

    query = '"errorCode": "'
    i = valueRecv.find(query)
    if i == -1:
        return -1
    else:
        j = i + len(query)
        k = valueRecv[j:].find('"')
        error_code = valueRecv[j:][:k]
        return int(error_code)

`none` models the `ValueError` raised by `int` on a malformed code. -/
def parseErrorCodeFast (recv : List Char) : Option Int :=
  match pyFindAux ecMarker recv 0 with
  | none => some (-1)
  | some i =>
    let j := i + ecMarker.length
    let rest := recv.drop j
    let k : Int :=
      match pyFindAux ['"'] rest 0 with
      | none => -1
      | some k => (k : Int)
    pyInt (pySliceTo rest k)

/-! ## `RC._parse_results` — Python `json.loads`

A recursive-descent model of `json.loads` on the JSON fragment the
protocol uses.  Strings are `List Char`; numbers are `ℚ` (Python's `int`
and `float` results of the number grammar coincide on it for the integer
conversion done by `_process`); `\uXXXX` escapes map through `Char.ofNat`
(surrogate pairs are not recombined; no reply contains them); the
non-standard `Infinity`/`NaN` extensions of Python's decoder are not
modelled (no claim exercises them). -/

/-- JSON values as produced by `json.loads`. -/
inductive JVal where
  | jnull
  | jbool (b : Bool)
  | jnum (q : ℚ)
  | jstr (s : List Char)
  | jarr (l : List JVal)
  | jobj (l : List (List Char × JVal))
deriving Repr

/-- JSON whitespace. -/
def jsonWs (c : Char) : Bool :=
  c = ' ' || c = '\t' || c = '\n' || c = '\r'

/-- Skip JSON whitespace. -/
def skipWs (l : List Char) : List Char := l.dropWhile jsonWs

/-- Hex digit value. -/
def hexVal (c : Char) : Option Nat :=
  if c.isDigit then some (c.toNat - 48)
  else if 'a' ≤ c ∧ c ≤ 'f' then some (c.toNat - 87)
  else if 'A' ≤ c ∧ c ≤ 'F' then some (c.toNat - 55)
  else none

/-- Single-character JSON escapes. -/
def escChar (e : Char) : Option Char :=
  if e = '"' then some '"'
  else if e = '\\' then some '\\'
  else if e = '/' then some '/'
  else if e = 'b' then some '\x08'
  else if e = 'f' then some '\x0c'
  else if e = 'n' then some '\n'
  else if e = 'r' then some '\r'
  else if e = 't' then some '\t'
  else none

/-- Body of a JSON string, entered after the opening quote; returns the
decoded content and the rest after the closing quote.  Unescaped control
characters are rejected (strict mode of `json.loads`).  Fuelled (each
step consumes at least one input character, see `parseString`). -/
def parseStringBody : Nat → List Char → Option (List Char × List Char)
  | 0, _ => none
  | _, [] => none
  | fuel + 1, c :: rest =>
    if c = '"' then some ([], rest)
    else if c = '\\' then
      match rest with
      | [] => none
      | e :: rest2 =>
        if e = 'u' then
          match rest2 with
          | h1 :: h2 :: h3 :: h4 :: rest3 =>
            match hexVal h1, hexVal h2, hexVal h3, hexVal h4 with
            | some a, some b, some c2, some d =>
              (parseStringBody fuel rest3).map
                (fun p => (Char.ofNat (((a * 16 + b) * 16 + c2) * 16 + d) :: p.1, p.2))
            | _, _, _, _ => none
          | _ => none
        else
          match escChar e with
          | some ec => (parseStringBody fuel rest2).map (fun p => (ec :: p.1, p.2))
          | none => none
    else if c.toNat < 32 then none
    else (parseStringBody fuel rest).map (fun p => (c :: p.1, p.2))

/-- A JSON string body with sufficient fuel: each step consumes at least
one character, so `length + 1` never runs out. -/
def parseString (l : List Char) : Option (List Char × List Char) :=
  parseStringBody (l.length + 1) l

/-- JSON number grammar: `-? int frac? exp?` with no leading zeros. -/
def parseNumber (l : List Char) : Option (ℚ × List Char) :=
  let signed : Bool × List Char :=
    match l with
    | '-' :: t => (true, t)
    | _ => (false, l)
  let neg := signed.1
  let l1 := signed.2
  let ds := l1.takeWhile Char.isDigit
  let r1 := l1.dropWhile Char.isDigit
  if ds.isEmpty then none
  else if 1 < ds.length ∧ ds.headD '0' = '0' then none
  else
    let step2 : Option (ℚ × List Char) :=
      match r1 with
      | '.' :: r2 =>
        let fs := r2.takeWhile Char.isDigit
        let r3 := r2.dropWhile Char.isDigit
        if fs.isEmpty then none
        else some ((digitsVal ds : ℚ) + (digitsVal fs : ℚ) / (10 : ℚ) ^ fs.length, r3)
      | _ => some ((digitsVal ds : ℚ), r1)
    match step2 with
    | none => none
    | some (base, r3) =>
      let step3 : Option (ℚ × List Char) :=
        match r3 with
        | c :: r4 =>
          if c = 'e' ∨ c = 'E' then
            match r4 with
            | '+' :: r5 =>
              let es := r5.takeWhile Char.isDigit
              if es.isEmpty then none
              else some (base * (10 : ℚ) ^ digitsVal es, r5.dropWhile Char.isDigit)
            | '-' :: r5 =>
              let es := r5.takeWhile Char.isDigit
              if es.isEmpty then none
              else some (base / (10 : ℚ) ^ digitsVal es, r5.dropWhile Char.isDigit)
            | _ =>
              let es := r4.takeWhile Char.isDigit
              if es.isEmpty then none
              else some (base * (10 : ℚ) ^ digitsVal es, r4.dropWhile Char.isDigit)
          else some (base, r3)
        | [] => some (base, r3)
      step3.map (fun p => (if neg then -p.1 else p.1, p.2))

mutual

/-- One JSON value (fuelled; the parser consumes at most three units of
fuel per input character, see `jsonLoads`). -/
def parseValue : Nat → List Char → Option (JVal × List Char)
  | 0, _ => none
  | f + 1, l =>
    match skipWs l with
    | [] => none
    | c :: rest =>
      if c = '"' then (parseString rest).map (fun p => (JVal.jstr p.1, p.2))
      else if c = '\x7b' then parseObject f rest
      else if c = '[' then parseArray f rest
      else if c = 't' then
        match rest with
        | 'r' :: 'u' :: 'e' :: r => some (JVal.jbool true, r)
        | _ => none
      else if c = 'f' then
        match rest with
        | 'a' :: 'l' :: 's' :: 'e' :: r => some (JVal.jbool false, r)
        | _ => none
      else if c = 'n' then
        match rest with
        | 'u' :: 'l' :: 'l' :: r => some (JVal.jnull, r)
        | _ => none
      else (parseNumber (c :: rest)).map (fun p => (JVal.jnum p.1, p.2))

/-- Object body, entered after `{`. -/
def parseObject : Nat → List Char → Option (JVal × List Char)
  | 0, _ => none
  | f + 1, l =>
    match skipWs l with
    | [] => none
    | c :: rest =>
      if c = '\x7d' then some (JVal.jobj [], rest)
      else parseMembers f (c :: rest) []

/-- Comma-separated object members. -/
def parseMembers : Nat → List Char → List (List Char × JVal) →
    Option (JVal × List Char)
  | 0, _, _ => none
  | f + 1, l, acc =>
    match skipWs l with
    | [] => none
    | c :: rest =>
      if c = '"' then
        match parseString rest with
        | none => none
        | some (key, r1) =>
          match skipWs r1 with
          | [] => none
          | c2 :: r2 =>
            if c2 = ':' then
              match parseValue f r2 with
              | none => none
              | some (v, r3) =>
                match skipWs r3 with
                | [] => none
                | c3 :: r4 =>
                  if c3 = ',' then parseMembers f r4 (acc ++ [(key, v)])
                  else if c3 = '\x7d' then some (JVal.jobj (acc ++ [(key, v)]), r4)
                  else none
            else none
      else none

/-- Array body, entered after `[`. -/
def parseArray : Nat → List Char → Option (JVal × List Char)
  | 0, _ => none
  | f + 1, l =>
    match skipWs l with
    | [] => none
    | c :: rest =>
      if c = ']' then some (JVal.jarr [], rest)
      else parseElems f (c :: rest) []

/-- Comma-separated array elements. -/
def parseElems : Nat → List Char → List JVal → Option (JVal × List Char)
  | 0, _, _ => none
  | f + 1, l, acc =>
    match parseValue f l with
    | none => none
    | some (v, r1) =>
      match skipWs r1 with
      | [] => none
      | c :: r2 =>
        if c = ',' then parseElems f r2 (acc ++ [v])
        else if c = ']' then some (JVal.jarr (acc ++ [v]), r2)
        else none

end

/-- `json.loads`: parse one value and require only whitespace after it
(`Extra data` otherwise).  The fuel bound `3 * length + 8` dominates the
parser's call depth, which consumes at most three units per input
character. -/
def jsonLoads (l : List Char) : Option JVal :=
  match parseValue (3 * l.length + 8) l with
  | some (v, rest) => if skipWs rest = [] then some v else none
  | none => none

/-- Python `dict` built by `json.loads` from object members: on duplicate
keys the last wins, so lookup scans the reversed member list. -/
def jsonGet (pairs : List (List Char × JVal)) (k : List Char) : Option JVal :=
  (pairs.reverse.find? (fun p => p.1 == k)).map (fun p => p.2)

/-- The key `"errorCode"` looked up by `_process`. -/
def ecKey : List Char := "errorCode".toList

/-- Python `int(v)` on a value decoded from JSON: strings go through
`int(str)`, numbers truncate toward zero, booleans are `0`/`1`;
`null`/arrays/objects raise (`TypeError`, folded into the same failure). -/
def pyIntOfJVal (v : JVal) : Option Int :=
  match v with
  | JVal.jstr s => pyInt s
  | JVal.jnum q => some (Int.tdiv q.num (q.den : Int))
  | JVal.jbool b => some (if b then 1 else 0)
  | _ => none

/--
`RC._process` after the transaction: `ret = json.loads(recv);
ec = int(ret["errorCode"])`, with each Python failure mode explicit. -/
def processCore (recv : List Char) : Except PyExn (Int × JVal) :=
  match jsonLoads recv with
  | none => Except.error PyExn.jsonDecodeError
  | some ret =>
    match ret with
    | JVal.jobj pairs =>
      match jsonGet pairs ecKey with
      | none => Except.error (PyExn.keyError "errorCode")
      | some v =>
        match pyIntOfJVal v with
        | none => Except.error PyExn.valueError
        | some ec => Except.ok (ec, ret)
    | _ => Except.error PyExn.typeError

/-- The status integer the structured view extracts, when no exception is
raised on the way. -/
def processStatus (recv : List Char) : Option Int :=
  match processCore recv with
  | Except.ok (ec, _) => some ec
  | Except.error _ => none

/-! ## Numeric parameters and their wire rendering -/

/-- A Python numeric argument of the command surface: an `int`, or a
`float` modelled as `ℚ`. -/
inductive PyNum where
  | pint (i : Int)
  | pfloat (q : ℚ)
deriving DecidableEq, Repr

/-- Numeric value, for the precondition comparisons (`accel <= 720`
etc., which Python performs on the numeric values). -/
def pyNumVal (n : PyNum) : ℚ :=
  match n with
  | PyNum.pint i => (i : ℚ)
  | PyNum.pfloat q => q

/-- Fractional digits of a nonnegative rational below 1 (fuelled);
empty once the remainder is zero. -/
def fracDigits : Nat → ℚ → List Char
  | 0, _ => []
  | n + 1, r =>
    if r = 0 then []
    else
      let d := (r * 10).floor.toNat
      Char.ofNat (48 + d) :: fracDigits n (r * 10 - (r * 10).floor)

/-- Decimal rendering of a rational, standing in for Python's
shortest-round-trip `str(float)`.  Exact for the finite-decimal values
used in this development; no theorem depends on its output. -/
def pyFloatRepr (q : ℚ) : String :=
  let sign := if q < 0 then "-" else ""
  let a := |q|
  let ip := a.floor.toNat
  let fr := a - a.floor
  sign ++ toString ip ++ "." ++
    (if fr = 0 then "0" else String.mk (fracDigits 64 fr))

/-- Python `str` on a numeric argument (`",".join(map(str, ...))`). -/
def pyNumStr (n : PyNum) : String :=
  match n with
  | PyNum.pint i => toString i
  | PyNum.pfloat q => pyFloatRepr q

/-! ## Typed command surface

Each operation is a function of its parameters and of the reply text the
controller would send back; it returns the texts written to the stream
and the returned tuple or raised exception.  The transaction gate
(`_sendRecvMsg`) performs exactly one write and hands back the reply, so
a reached `_sendRecvMsg` contributes its request text to `writes`. -/

/-- `RC.power_on` request text. -/
def powerOnSend : String := "\x7b\"cmdName\": \"power_on\"\x7d"

/-- `RC.power_on`: `_process`, then `(ec,)` on success or `(ec, recv)`
on a nonzero status. -/
def power_on (recv : List Char) : OpOut :=
  match processCore recv with
  | Except.error e => ⟨[powerOnSend], Except.error e⟩
  | Except.ok (ec, _) =>
    ⟨[powerOnSend],
     Except.ok (if ec = 0 then Ret.one ec else Ret.two ec (PyVal.str recv))⟩

/-- `RC.servo_j` request text. -/
def servoSend (jp : List PyNum) (mm sn : Int) : String :=
  "\x7b\"cmdName\": \"servo_j\", \"jointPosition\": [" ++
    String.intercalate "," (jp.map pyNumStr) ++ "], \"relFlag\": " ++
    toString mm ++ ", \"stepNum\": " ++ toString sn ++ "\x7d"

/-- `RC.servo_j`: asserts `move_mode in [0, 1]` before encoding, then one
transaction and the fast status scan. -/
def servo_j (jp : List PyNum) (mm sn : Int) (recv : List Char) : OpOut :=
  if mm = 0 ∨ mm = 1 then
    match parseErrorCodeFast recv with
    | none => ⟨[servoSend jp mm sn], Except.error PyExn.valueError⟩
    | some ec =>
      ⟨[servoSend jp mm sn],
       Except.ok (if ec = 0 then Ret.one ec else Ret.two ec (PyVal.str recv))⟩
  else ⟨[], Except.error (PyExn.assertError "move_mode not in 0 1")⟩

/-- `RC.get_joint_position` request text (note: no space after the
colon, as in the source). -/
def getJointPosSend : String := "\x7b\"cmdName\":\"get_joint_pos\"\x7d"

/-- The array-field marker `'"joint_pos": ['` scanned for on success. -/
def jointPosQuery : List Char := "\"joint_pos\": [".toList

/-- `RC.get_joint_position`: fast status scan; on status 0, locate the
`joint_pos` array marker, split its bracketed contents on commas and
convert each piece with `float`; on any scan failure fall through to
`(ec, recv)`. -/
def get_joint_position (recv : List Char) : OpOut :=
  match parseErrorCodeFast recv with
  | none => ⟨[getJointPosSend], Except.error PyExn.valueError⟩
  | some ec =>
    if ec = 0 then
      match pyFindAux jointPosQuery recv 0 with
      | some i =>
        let j := i + jointPosQuery.length
        let rest := recv.drop j
        match pyFindAux [']'] rest 0 with
        | some k =>
          match (pySplitChar (rest.take k) ',').mapM pyFloat with
          | some qs => ⟨[getJointPosSend], Except.ok (Ret.two ec (PyVal.floatList qs))⟩
          | none => ⟨[getJointPosSend], Except.error PyExn.valueError⟩
        | none => ⟨[getJointPosSend], Except.ok (Ret.two ec (PyVal.str recv))⟩
      | none => ⟨[getJointPosSend], Except.ok (Ret.two ec (PyVal.str recv))⟩
    else ⟨[getJointPosSend], Except.ok (Ret.two ec (PyVal.str recv))⟩

/-- `RC.joint_move_with_acc` request text. -/
def jointMoveSend (jp : List PyNum) (mm : Int) (sp ac : PyNum) : String :=
  "\x7b\"cmdName\": \"joint_move\", \"relFlag\": " ++ toString mm ++
    ", \"jointPosition\": [" ++ String.intercalate "," (jp.map pyNumStr) ++
    "], \"speed\": " ++ pyNumStr sp ++ ", \"accel\": " ++ pyNumStr ac ++ "\x7d"

/-- `RC.joint_move_with_acc`: asserts `move_mode in [0, 1]` and
`is_block` before encoding, then `_process`. -/
def joint_move_with_acc (jp : List PyNum) (mm : Int) (blk : Bool)
    (sp ac : PyNum) (recv : List Char) : OpOut :=
  if mm = 0 ∨ mm = 1 then
    if blk then
      match processCore recv with
      | Except.error e => ⟨[jointMoveSend jp mm sp ac], Except.error e⟩
      | Except.ok (ec, _) =>
        ⟨[jointMoveSend jp mm sp ac],
         Except.ok (if ec = 0 then Ret.one ec else Ret.two ec (PyVal.str recv))⟩
    else ⟨[], Except.error (PyExn.assertError "is_block")⟩
  else ⟨[], Except.error (PyExn.assertError "move_mode not in 0 1")⟩

/-- `RC.end_move` request text. -/
def endMoveSend (ep : List PyNum) (sp ac : PyNum) : String :=
  "\x7b\"cmdName\": \"end_move\", \"endPosition\": [" ++
    String.intercalate "," (ep.map pyNumStr) ++ "], \"speed\": " ++
    pyNumStr sp ++ ", \"accel\": " ++ pyNumStr ac ++ "\x7d"

/-- `RC.end_move`: asserts `accel <= 720` before encoding, then
`_process`. -/
def end_move (ep : List PyNum) (sp ac : PyNum) (recv : List Char) : OpOut :=
  if pyNumVal ac ≤ 720 then
    match processCore recv with
    | Except.error e => ⟨[endMoveSend ep sp ac], Except.error e⟩
    | Except.ok (ec, _) =>
      ⟨[endMoveSend ep sp ac],
       Except.ok (if ec = 0 then Ret.one ec else Ret.two ec (PyVal.str recv))⟩
  else ⟨[], Except.error (PyExn.assertError "accel > 720 is not recommended")⟩

/-- `RC.linear_move_extend` request text (`moveL` on the wire). -/
def linearMoveSend (ep : List PyNum) (mm : Int) (sp ac tol : PyNum) : String :=
  "\x7b\"cmdName\": \"moveL\", \"relFlag\": " ++ toString mm ++
    ", \"cartPosition\": [" ++ String.intercalate "," (ep.map pyNumStr) ++
    "], \"speed\": " ++ pyNumStr sp ++ ", \"accel\": " ++ pyNumStr ac ++
    ", \"tol\": " ++ pyNumStr tol ++ "\x7d"

/-- `RC.linear_move_extend`: asserts `move_mode in [0, 1]`, `is_block`
and `accel <= 8000`, in source order, before encoding, then `_process`. -/
def linear_move_extend (ep : List PyNum) (mm : Int) (blk : Bool)
    (sp ac tol : PyNum) (recv : List Char) : OpOut :=
  if mm = 0 ∨ mm = 1 then
    if blk then
      if pyNumVal ac ≤ 8000 then
        match processCore recv with
        | Except.error e => ⟨[linearMoveSend ep mm sp ac tol], Except.error e⟩
        | Except.ok (ec, _) =>
          ⟨[linearMoveSend ep mm sp ac tol],
           Except.ok (if ec = 0 then Ret.one ec else Ret.two ec (PyVal.str recv))⟩
      else ⟨[], Except.error (PyExn.assertError "accel > 8000 is not recommended")⟩
    else ⟨[], Except.error (PyExn.assertError "is_block")⟩
  else ⟨[], Except.error (PyExn.assertError "move_mode not in 0 1")⟩

/-! ## Session lifecycle (`__init__`, `login`, `_close`, `logout`,
`__del__`, `_wait_reply`)

The stream handle `self._socket` is `Option Sock`; a `Sock` records
whether `connect` has completed on it.  Environment values stand for the
behaviour of the operating system: whether `socket.socket` or `connect`
raises, and whether `shutdown`/`close` raise during teardown. -/

/-- A socket object; `connected` records whether `connect` completed. -/
structure Sock where
  connected : Bool
deriving DecidableEq, Repr

/-- The mutable state of an `RC` instance that the lifecycle touches. -/
structure Session where
  socket : Option Sock
deriving DecidableEq, Repr

/-- `RC.__init__`: `self._socket = None`. -/
def initSession : Session := ⟨none⟩

/-- OS behaviour during `_close`: whether `shutdown` or `close` raise. -/
structure CloseEnv where
  shutdownRaises : Bool
  closeRaises : Bool
deriving DecidableEq, Repr

/-- `socket.shutdown(SHUT_RDWR)` under the environment. -/
def sockShutdown (e : CloseEnv) : Except PyExn Unit :=
  if e.shutdownRaises then Except.error PyExn.osError else Except.ok ()

/-- `socket.close()` under the environment. -/
def sockClose (e : CloseEnv) : Except PyExn Unit :=
  if e.closeRaises then Except.error PyExn.osError else Except.ok ()

/-- `try: ... except Exception: logger.exception(...)` — the exception,
if any, is swallowed after logging. -/
def tryLog (r : Except PyExn Unit) : Unit :=
  match r with
  | Except.ok _ => ()
  | Except.error _ => ()

/-- `RC._close`: if a socket is present, best-effort `shutdown` then
`close`, each in its own swallowing `try`, then `self._socket = None`. -/
def close (e : CloseEnv) (s : Session) : Session × Except PyExn Unit :=
  match s.socket with
  | none => (s, Except.ok ())
  | some _ =>
    let u1 := tryLog (sockShutdown e)
    let u2 := tryLog (sockClose e)
    let _ := (u1, u2)
    (⟨none⟩, Except.ok ())

/-- `RC.__del__`: calls `_close`. -/
def delSession (e : CloseEnv) (s : Session) : Session × Except PyExn Unit :=
  close e s

/-- `RC.logout`: `_logout_socket` is `_close`; re-raises what `_close`
raises (nothing) and returns `(0,)`. -/
def logout (e : CloseEnv) (s : Session) : Session × Except PyExn Ret :=
  match close e s with
  | (s1, Except.ok _) => (s1, Except.ok (Ret.one 0))
  | (s1, Except.error ex) => (s1, Except.error ex)

/-- OS behaviour during `login`: `socket.socket` raises, `connect` (or
`settimeout`) raises, or everything succeeds. -/
inductive LoginEnv where
  | createRaises
  | connectRaises
  | ok
deriving DecidableEq, Repr

/-- `RC.login`: create a socket, set its timeout, `connect`; on any
failure run `_close` and re-raise; on success return `(0,)`.  When
`socket.socket` itself raises, the assignment to `self._socket` has not
happened, so `_close` acts on the previous handle. -/
def login (env : LoginEnv) (e : CloseEnv) (s : Session) :
    Session × Except PyExn Ret :=
  match env with
  | LoginEnv.createRaises => ((close e s).1, Except.error PyExn.osError)
  | LoginEnv.connectRaises =>
    ((close e ⟨some ⟨false⟩⟩).1, Except.error PyExn.osError)
  | LoginEnv.ok => (⟨some ⟨true⟩⟩, Except.ok (Ret.one 0))

/-! ## `RC._wait_reply` and UTF-8 -/

/-- The value returned by `_wait_reply`: a decoded text (`str`) or a raw
`bytes` value. -/
inductive WaitRet where
  | strv (cps : List Nat)
  | bytesv (bs : List Nat)
deriving DecidableEq, Repr

/-- UTF-8 decoding of a byte list into code points, as performed by
Python `str(data, encoding="utf-8")`: rejects stray continuation bytes,
overlong forms, surrogates, and out-of-range values.  `none` models the
raised `UnicodeDecodeError`. -/
def utf8DecodeAux : Nat → List Nat → Option (List Nat)
  | 0, _ => none
  | _, [] => some []
  | fuel + 1, b :: rest =>
    if b < 0x80 then (utf8DecodeAux fuel rest).map (b :: ·)
    else if b < 0xC2 then none
    else if b < 0xE0 then
      match rest with
      | b1 :: rest2 =>
        if 0x80 ≤ b1 ∧ b1 < 0xC0 then
          (utf8DecodeAux fuel rest2).map (((b - 0xC0) * 0x40 + (b1 - 0x80)) :: ·)
        else none
      | [] => none
    else if b < 0xF0 then
      match rest with
      | b1 :: b2 :: rest2 =>
        if (0x80 ≤ b1 ∧ b1 < 0xC0) ∧ (0x80 ≤ b2 ∧ b2 < 0xC0) then
          let cp := (b - 0xE0) * 0x1000 + (b1 - 0x80) * 0x40 + (b2 - 0x80)
          if cp < 0x800 ∨ (0xD800 ≤ cp ∧ cp < 0xE000) then none
          else (utf8DecodeAux fuel rest2).map (cp :: ·)
        else none
      | _ => none
    else if b < 0xF5 then
      match rest with
      | b1 :: b2 :: b3 :: rest2 =>
        if (0x80 ≤ b1 ∧ b1 < 0xC0) ∧ (0x80 ≤ b2 ∧ b2 < 0xC0) ∧
            (0x80 ≤ b3 ∧ b3 < 0xC0) then
          let cp := (b - 0xF0) * 0x40000 + (b1 - 0x80) * 0x1000 +
            (b2 - 0x80) * 0x40 + (b3 - 0x80)
          if cp < 0x10000 ∨ 0x110000 ≤ cp then none
          else (utf8DecodeAux fuel rest2).map (cp :: ·)
        else none
      | _ => none
    else none

/-- UTF-8 decoding with sufficient fuel: each step consumes at least one
byte, so `length + 1` never runs out. -/
def utf8Decode (bs : List Nat) : Option (List Nat) :=
  utf8DecodeAux (bs.length + 1) bs

/-- `RC._wait_reply`: asserts a socket is present, reads one chunk; a
zero-length chunk is returned as the raw `bytes` value, any other chunk
is returned UTF-8-decoded as `str`. -/
def wait_reply (s : Session) (chunk : List Nat) : Except PyExn WaitRet :=
  match s.socket with
  | none => Except.error (PyExn.assertError "Socket is not connected")
  | some _ =>
    if chunk.isEmpty then Except.ok (WaitRet.bytesv chunk)
    else
      match utf8Decode chunk with
      | none => Except.error PyExn.unicodeDecodeError
      | some cps => Except.ok (WaitRet.strv cps)

/-- Whether a `_wait_reply` outcome is a Python text string. -/
def isStrReturn (r : Except PyExn WaitRet) : Bool :=
  match r with
  | Except.ok (WaitRet.strv _) => true
  | _ => false

/-! ## Reachable session states

The lifecycle operations are the only methods that assign
`self._socket`; every other method only reads it (and possibly raises),
so reachability over `init`/`login`/`_close`/`logout`/`__del__` covers
all states of the class. -/

/-- Session states reachable through the operations of the class. -/
inductive Reachable : Session → Prop where
  | init : Reachable initSession
  | loginStep (env : LoginEnv) (e : CloseEnv) (s : Session) :
      Reachable s → Reachable (login env e s).1
  | closeStep (e : CloseEnv) (s : Session) :
      Reachable s → Reachable (close e s).1
  | logoutStep (e : CloseEnv) (s : Session) :
      Reachable s → Reachable (logout e s).1
  | delStep (e : CloseEnv) (s : Session) :
      Reachable s → Reachable (delSession e s).1

/-! ## Auxiliary definitions for the claims -/

/-- The decimal digit characters. -/
def digitChars : List Char := "0123456789".toList

/-- A status-bearing reply in the controller's wire format: the
`errorCode` field rendered with one space after the colon and a quoted
digit string, `{"errorCode": "<digits>"}`. -/
def canonReply (ds : List Char) : List Char :=
  '\x7b' :: (ecMarker ++ (ds ++ ['"', '\x7d']))

/-! ## Helper lemmas -/

lemma ecMarker_chars :
    ecMarker = ['"', 'e', 'r', 'r', 'o', 'r', 'C', 'o', 'd', 'e', '"', ':', ' ', '"'] := by
  rfl

lemma ecKey_chars :
    ecKey = ['e', 'r', 'r', 'o', 'r', 'C', 'o', 'd', 'e'] := by
  rfl

lemma digit_char_props {c : Char} (h : c ∈ digitChars) :
    c.isDigit = true ∧ c ≠ '"' ∧ c ≠ '\\' ∧ 32 ≤ c.toNat ∧ c ≠ '-' ∧
      c ≠ '+' ∧ isPySpace c = false ∧ jsonWs c = false := by
  fin_cases h <;> refine ⟨by decide, by decide, by decide, by decide,
    by decide, by decide, by decide, by decide⟩

lemma isPrefixOf_append_self (a b : List Char) : a.isPrefixOf (a ++ b) = true := by
  induction a with
  | nil => simp [List.isPrefixOf]
  | cons c t ih => simp [List.isPrefixOf, ih]

lemma pyFindAux_self (needle rest : List Char) (i : Nat) (hne : needle ≠ []) :
    pyFindAux needle (needle ++ rest) i = some i := by
  cases needle with
  | nil => exact absurd rfl hne
  | cons c t =>
    rw [List.cons_append, pyFindAux, ← List.cons_append,
      isPrefixOf_append_self]
    rfl

lemma findAux_quote (ds r : List Char) (i : Nat) (h : ∀ c ∈ ds, c ≠ '"') :
    pyFindAux ['"'] (ds ++ '"' :: r) i = some (i + ds.length) := by
  induction ds generalizing i with
  | nil => simp [pyFindAux, List.isPrefixOf]
  | cons c t ih =>
    have hc : c ≠ '"' := h c (by simp)
    rw [List.cons_append, pyFindAux]
    have hpre : (['"'] : List Char).isPrefixOf (c :: (t ++ '"' :: r)) = false := by
      simp [List.isPrefixOf]
      exact fun hq => absurd hq.symm hc
    rw [hpre]
    simp only [Bool.false_eq_true, if_false]
    rw [ih (i + 1) (fun x hx => h x (List.mem_cons_of_mem _ hx))]
    congr 1
    simp [List.length_cons]
    omega

lemma close_fst_socket (e : CloseEnv) (s : Session) : (close e s).1.socket = none := by
  cases s with
  | mk sock => cases sock <;> simp [close]

lemma close_snd_ok (e : CloseEnv) (s : Session) : (close e s).2 = Except.ok () := by
  cases s with
  | mk sock => cases sock <;> simp [close]

lemma login_fst_socket (env : LoginEnv) (e : CloseEnv) (s : Session) :
    (login env e s).1.socket = none ∨ (login env e s).1.socket = some ⟨true⟩ := by
  cases env with
  | createRaises => exact Or.inl (close_fst_socket e s)
  | connectRaises => exact Or.inl (close_fst_socket e ⟨some ⟨false⟩⟩)
  | ok => exact Or.inr rfl

lemma logout_fst_socket (e : CloseEnv) (s : Session) :
    (logout e s).1.socket = none := by
  have h1 := close_fst_socket e s
  have h2 := close_snd_ok e s
  unfold logout
  rcases hc : close e s with ⟨s1, r⟩
  rw [hc] at h1 h2
  simp at h1 h2
  subst h2
  simpa using h1

/-! ## Claim theorems -/

/-- C8: encoding the servo-mode move command with
`joint_pos = [10,20,30,40,50,60]` and `move_mode = 0`, then decoding the
synthetic reply `{"errorCode": "0"}`, performs exactly the one encoded
write and yields the success result `(0,)` with no payload. -/
theorem C8_servo_j_round_trip :
    servo_j [PyNum.pint 10, PyNum.pint 20, PyNum.pint 30, PyNum.pint 40,
        PyNum.pint 50, PyNum.pint 60] 0 1
        "\x7b\"errorCode\": \"0\"\x7d".toList =
      ⟨["\x7b\"cmdName\": \"servo_j\", \"jointPosition\": [10,20,30,40,50,60], \"relFlag\": 0, \"stepNum\": 1\x7d"],
       Except.ok (Ret.one 0)⟩ := by
  rfl

/-- C9: the synthetic reply
`{"errorCode": "0", "joint_pos": [1.0,2.0,3.0,4.0,5.0,6.0]}` to the
joint-position query yields success with status 0 and payload exactly
the floats `[1.0, 2.0, 3.0, 4.0, 5.0, 6.0]`, via the array-field scan. -/
theorem C9_get_joint_position_payload :
    get_joint_position
        "\x7b\"errorCode\": \"0\", \"joint_pos\": [1.0,2.0,3.0,4.0,5.0,6.0]\x7d".toList =
      ⟨["\x7b\"cmdName\":\"get_joint_pos\"\x7d"],
       Except.ok (Ret.two 0 (PyVal.floatList [1, 2, 3, 4, 5, 6]))⟩ := by
  with_unfolding_all rfl

/-- C1 (counterexample): the reply `{"errorCode":"2"}` is a well-formed
JSON object whose `errorCode` field is the decimal string `"2"` (the
structured view extracts 2), yet the fast scan returns −1 because the
literal marker it searches for hard-codes one space after the colon. -/
theorem C1_counterexample :
    parseErrorCodeFast "\x7b\"errorCode\":\"2\"\x7d".toList = some (-1) ∧
    processStatus "\x7b\"errorCode\":\"2\"\x7d".toList = some 2 ∧
    some (-1 : Int) ≠ some (2 : Int) := by
  refine ⟨by rfl, by with_unfolding_all rfl, by decide⟩

/-- C2 (counterexample): the reply `{}` has no status field, and
`power_on` (a structured-view operation) raises a `KeyError` on it
instead of returning a result with status −1. -/
theorem C2_counterexample :
    power_on "\x7b\x7d".toList =
      ⟨[powerOnSend], Except.error (PyExn.keyError "errorCode")⟩ := by
  with_unfolding_all rfl

/-- C3 (counterexample): on a connected session a zero-length read makes
`_wait_reply` return the raw empty `bytes` value, not a decoded text
string, so its return value is not always a text string. -/
theorem C3_counterexample :
    wait_reply ⟨some ⟨true⟩⟩ [] = Except.ok (WaitRet.bytesv []) ∧
    isStrReturn (wait_reply ⟨some ⟨true⟩⟩ []) = false := by
  exact ⟨rfl, rfl⟩

/-- C10 (counterexample): on the reply `"errorCode": "-1"` the marker is
present (at index 0), and the fast scan still returns −1 — the value −1
is not returned only on marker-absent inputs. -/
theorem C10_counterexample :
    parseErrorCodeFast "\"errorCode\": \"-1\"".toList = some (-1) ∧
    pyFind "\"errorCode\": \"-1\"".toList ecMarker = 0 := by
  exact ⟨by rfl, by rfl⟩

/-- C6: `_close` never raises, for every prior session state and every
behaviour of the socket's `shutdown` and `close` (their failures are
swallowed after logging), and afterwards the stream handle is cleared;
`__del__` simply calls it, so teardown is equally safe. -/
theorem C6_close_never_raises (e : CloseEnv) (s : Session) :
    (close e s).2 = Except.ok () ∧ (close e s).1.socket = none ∧
    (delSession e s).2 = Except.ok () ∧ (delSession e s).1.socket = none := by
  exact ⟨close_snd_ok e s, close_fst_socket e s, close_snd_ok e s,
    close_fst_socket e s⟩

/-- C5: a failed `login` (socket creation or connect raising) leaves the
session with no stream handle — `_close` has torn it down before the
error propagates — and a subsequent successful `login` on the same
session still succeeds. -/
theorem C5_login_failure_clears_socket (env : LoginEnv) (e e2 : CloseEnv)
    (s : Session) (h : env ≠ LoginEnv.ok) :
    (login env e s).1.socket = none ∧
    (∃ ex, (login env e s).2 = Except.error ex) ∧
    login LoginEnv.ok e2 (login env e s).1 =
      (⟨some ⟨true⟩⟩, Except.ok (Ret.one 0)) := by
  cases env with
  | ok => exact absurd rfl h
  | createRaises => exact ⟨close_fst_socket e s, ⟨PyExn.osError, rfl⟩, rfl⟩
  | connectRaises =>
    exact ⟨close_fst_socket e ⟨some ⟨false⟩⟩, ⟨PyExn.osError, rfl⟩, rfl⟩

/-- Witness for C5 at a concrete failing environment. -/
theorem C5_login_failure_clears_socket_witness :
    LoginEnv.connectRaises ≠ LoginEnv.ok ∧
    ((login LoginEnv.connectRaises ⟨false, false⟩ initSession).1.socket = none ∧
     (∃ ex, (login LoginEnv.connectRaises ⟨false, false⟩ initSession).2 =
        Except.error ex) ∧
     login LoginEnv.ok ⟨false, false⟩
        (login LoginEnv.connectRaises ⟨false, false⟩ initSession).1 =
       (⟨some ⟨true⟩⟩, Except.ok (Ret.one 0))) :=
  ⟨by decide,
   C5_login_failure_clears_socket LoginEnv.connectRaises ⟨false, false⟩
     ⟨false, false⟩ initSession (by decide)⟩

/-- C7: in every reachable session state the stream handle is present
iff the session is logically connected (the handle, when present, is a
connected socket): null at construction, non-null and connected after a
successful `login`, null again after `_close`/`logout`/`__del__` or a
failed `login`. -/
theorem C7_socket_invariant (s : Session) (h : Reachable s) :
    s.socket.isSome = true ↔ s.socket = some ⟨true⟩ := by
  have key : s.socket = none ∨ s.socket = some ⟨true⟩ := by
    induction h with
    | init => exact Or.inl rfl
    | loginStep env e s' _ _ => exact login_fst_socket env e s'
    | closeStep e s' _ _ => exact Or.inl (close_fst_socket e s')
    | logoutStep e s' _ _ => exact Or.inl (logout_fst_socket e s')
    | delStep e s' _ _ => exact Or.inl (close_fst_socket e s')
  rcases key with hk | hk <;> rw [hk] <;> simp

/-- Witness for C7 at the initial state. -/
theorem C7_socket_invariant_witness :
    Reachable initSession ∧
    (initSession.socket.isSome = true ↔ initSession.socket = some ⟨true⟩) :=
  ⟨Reachable.init, C7_socket_invariant initSession Reachable.init⟩

/-- C4: a movement-mode flag outside `{0, 1}` (`servo_j`,
`joint_move_with_acc`, `linear_move_extend`) or an acceleration above
the documented ceiling (`end_move` above 720, `linear_move_extend` above
8000) is rejected by the leading `assert` before any write occurs on the
stream: the outcome carries an empty write trace and the raised
`AssertionError`. -/
theorem C4_reject_before_write :
    (∀ (jp : List PyNum) (mm sn : Int) (recv : List Char), mm ≠ 0 → mm ≠ 1 →
      servo_j jp mm sn recv =
        ⟨[], Except.error (PyExn.assertError "move_mode not in 0 1")⟩) ∧
    (∀ (jp : List PyNum) (mm : Int) (blk : Bool) (sp ac : PyNum)
        (recv : List Char), mm ≠ 0 → mm ≠ 1 →
      joint_move_with_acc jp mm blk sp ac recv =
        ⟨[], Except.error (PyExn.assertError "move_mode not in 0 1")⟩) ∧
    (∀ (ep : List PyNum) (mm : Int) (blk : Bool) (sp ac tol : PyNum)
        (recv : List Char), mm ≠ 0 → mm ≠ 1 →
      linear_move_extend ep mm blk sp ac tol recv =
        ⟨[], Except.error (PyExn.assertError "move_mode not in 0 1")⟩) ∧
    (∀ (ep : List PyNum) (sp ac : PyNum) (recv : List Char),
        ¬ pyNumVal ac ≤ 720 →
      end_move ep sp ac recv =
        ⟨[], Except.error (PyExn.assertError "accel > 720 is not recommended")⟩) ∧
    (∀ (ep : List PyNum) (mm : Int) (blk : Bool) (sp ac tol : PyNum)
        (recv : List Char), (mm = 0 ∨ mm = 1) → ¬ pyNumVal ac ≤ 8000 →
      (linear_move_extend ep mm blk sp ac tol recv).writes = [] ∧
      ∃ msg, (linear_move_extend ep mm blk sp ac tol recv).result =
        Except.error (PyExn.assertError msg)) := by
  refine ⟨?_, ?_, ?_, ?_, ?_⟩
  · intro jp mm sn recv h0 h1
    unfold servo_j
    rw [if_neg (by tauto)]
  · intro jp mm blk sp ac recv h0 h1
    unfold joint_move_with_acc
    rw [if_neg (by tauto)]
  · intro ep mm blk sp ac tol recv h0 h1
    unfold linear_move_extend
    rw [if_neg (by tauto)]
  · intro ep sp ac recv hac
    unfold end_move
    rw [if_neg hac]
  · intro ep mm blk sp ac tol recv hmm hac
    unfold linear_move_extend
    rw [if_pos hmm]
    cases blk with
    | false => exact ⟨rfl, "is_block", rfl⟩
    | true =>
      rw [if_pos rfl, if_neg hac]
      exact ⟨rfl, "accel > 8000 is not recommended", rfl⟩

/-- Witness for C4 at concrete out-of-range parameters. -/
theorem C4_reject_before_write_witness :
    ((2 : Int) ≠ 0 ∧ (2 : Int) ≠ 1 ∧
     ¬ pyNumVal (PyNum.pint 721) ≤ 720 ∧
     ¬ pyNumVal (PyNum.pint 8001) ≤ 8000) ∧
    servo_j [] 2 1 [] =
      ⟨[], Except.error (PyExn.assertError "move_mode not in 0 1")⟩ ∧
    joint_move_with_acc [] 2 true (PyNum.pint 1) (PyNum.pint 1) [] =
      ⟨[], Except.error (PyExn.assertError "move_mode not in 0 1")⟩ ∧
    linear_move_extend [] 2 true (PyNum.pint 1) (PyNum.pint 1) (PyNum.pint 1) [] =
      ⟨[], Except.error (PyExn.assertError "move_mode not in 0 1")⟩ ∧
    end_move [] (PyNum.pint 1) (PyNum.pint 721) [] =
      ⟨[], Except.error (PyExn.assertError "accel > 720 is not recommended")⟩ ∧
    ((linear_move_extend [] 0 true (PyNum.pint 1) (PyNum.pint 8001)
        (PyNum.pint 1) []).writes = [] ∧
     ∃ msg, (linear_move_extend [] 0 true (PyNum.pint 1) (PyNum.pint 8001)
        (PyNum.pint 1) []).result = Except.error (PyExn.assertError msg)) := by
  have h720 : ¬ pyNumVal (PyNum.pint 721) ≤ 720 := by
    simp [pyNumVal]
    norm_num
  have h8000 : ¬ pyNumVal (PyNum.pint 8001) ≤ 8000 := by
    simp [pyNumVal]
    norm_num
  refine ⟨⟨by decide, by decide, h720, h8000⟩, ?_, ?_, ?_, ?_, ?_⟩
  · exact C4_reject_before_write.1 [] 2 1 [] (by decide) (by decide)
  · exact C4_reject_before_write.2.1 [] 2 true _ _ [] (by decide) (by decide)
  · exact C4_reject_before_write.2.2.1 [] 2 true _ _ _ [] (by decide) (by decide)
  · exact C4_reject_before_write.2.2.2.1 [] _ _ [] h720
  · exact C4_reject_before_write.2.2.2.2 [] 0 true _ _ _ [] (Or.inl rfl) h8000

/-- C10 (amended): the fast scan is not total on marker-bearing replies
— non-decimal code text raises from `int`, and with no closing quote the
remainder minus its last character is taken as the code (yielding a
value, or raising when that is malformed); on marker-absent input it
returns −1 via the not-found branch (though −1 can also arise from a
marker-bearing reply quoting `-1`). -/
theorem C10_fast_scan_not_total :
    parseErrorCodeFast "\"errorCode\": \"abc\"".toList = none ∧
    parseErrorCodeFast "\"errorCode\": \"52".toList = some 5 ∧
    parseErrorCodeFast "\"errorCode\": \"5".toList = none ∧
    (∀ recv : List Char, pyFindAux ecMarker recv 0 = none →
      parseErrorCodeFast recv = some (-1)) := by
  refine ⟨by rfl, by rfl, by rfl, ?_⟩
  intro recv h
  unfold parseErrorCodeFast
  rw [h]

/-- Witness for C10's marker-absent branch at a concrete reply. -/
theorem C10_fast_scan_not_total_witness :
    pyFindAux ecMarker "hello".toList 0 = none ∧
    parseErrorCodeFast "hello".toList = some (-1) :=
  ⟨by rfl, C10_fast_scan_not_total.2.2.2 "hello".toList (by rfl)⟩

/-- C3 (amended): on a connected session `_wait_reply` returns every
nonempty chunk that UTF-8-decodes as the decoded text string; a
zero-length read is returned as the raw empty `bytes` value — a valid
return, not an error. -/
theorem C3_wait_reply_decodes (s : Session) (sk : Sock)
    (hs : s.socket = some sk) (chunk : List Nat) (cps : List Nat) :
    (chunk ≠ [] → utf8Decode chunk = some cps →
      wait_reply s chunk = Except.ok (WaitRet.strv cps)) ∧
    wait_reply s [] = Except.ok (WaitRet.bytesv []) := by
  constructor
  · intro hne hdec
    unfold wait_reply
    rw [hs]
    rw [if_neg (by simpa using hne), hdec]
  · unfold wait_reply
    rw [hs]
    rfl

/-- Witness for C3 (amended) at a concrete session and chunk. -/
theorem C3_wait_reply_decodes_witness :
    (Session.mk (some ⟨true⟩)).socket = some ⟨true⟩ ∧
    ([104, 105] : List Nat) ≠ [] ∧
    utf8Decode [104, 105] = some [104, 105] ∧
    wait_reply ⟨some ⟨true⟩⟩ [104, 105] =
      Except.ok (WaitRet.strv [104, 105]) ∧
    wait_reply ⟨some ⟨true⟩⟩ [] = Except.ok (WaitRet.bytesv []) := by
  have h := C3_wait_reply_decodes ⟨some ⟨true⟩⟩ ⟨true⟩ rfl [104, 105] [104, 105]
  exact ⟨rfl, by decide, by rfl, h.1 (by decide) (by rfl), h.2⟩

/-- C2 (amended): a nonzero controller status is returned to the caller
as the two-element result `(status, raw reply text)` by every typed
operation — fast-scan ones (`servo_j`) and structured-view ones
(`power_on`) alike — and for fast-scan operations an absent status
marker yields the result `(-1, raw reply text)`; in particular the reply
`{"errorCode": "2"}` yields `(2, raw text)` for both kinds.  (For
structured-view operations a reply lacking the status field raises a
`KeyError` instead of yielding −1.) -/
theorem C2_failure_results :
    (∀ (recv : List Char) (ec : Int), parseErrorCodeFast recv = some ec →
        ec ≠ 0 → ∀ (jp : List PyNum) (sn : Int),
      (servo_j jp 0 sn recv).result = Except.ok (Ret.two ec (PyVal.str recv))) ∧
    (∀ recv : List Char, pyFindAux ecMarker recv 0 = none →
        ∀ (jp : List PyNum) (sn : Int),
      (servo_j jp 0 sn recv).result =
        Except.ok (Ret.two (-1) (PyVal.str recv))) ∧
    (∀ (recv : List Char) (ec : Int) (ret : JVal),
        processCore recv = Except.ok (ec, ret) → ec ≠ 0 →
      (power_on recv).result = Except.ok (Ret.two ec (PyVal.str recv))) ∧
    (power_on "\x7b\"errorCode\": \"2\"\x7d".toList).result =
      Except.ok (Ret.two 2 (PyVal.str "\x7b\"errorCode\": \"2\"\x7d".toList)) ∧
    (servo_j [] 0 1 "\x7b\"errorCode\": \"2\"\x7d".toList).result =
      Except.ok (Ret.two 2 (PyVal.str "\x7b\"errorCode\": \"2\"\x7d".toList)) := by
  refine ⟨?_, ?_, ?_, by with_unfolding_all rfl, by rfl⟩
  · intro recv ec h hec jp sn
    simp [servo_j, h, hec]
  · intro recv h jp sn
    simp [servo_j, parseErrorCodeFast, h]
  · intro recv ec ret h hec
    simp [power_on, h, hec]

/-- Witness for C2 (amended) at a concrete nonzero-status reply. -/
theorem C2_failure_results_witness :
    parseErrorCodeFast "\x7b\"errorCode\": \"5\"\x7d".toList = some 5 ∧
    (5 : Int) ≠ 0 ∧
    (servo_j [] 0 1 "\x7b\"errorCode\": \"5\"\x7d".toList).result =
      Except.ok (Ret.two 5 (PyVal.str "\x7b\"errorCode\": \"5\"\x7d".toList)) :=
  ⟨by rfl, by decide,
   C2_failure_results.1 "\x7b\"errorCode\": \"5\"\x7d".toList 5 (by rfl)
     (by decide) [] 1⟩

lemma pyFindAux_cons (needle : List Char) (c : Char) (t : List Char) (i : Nat) :
    pyFindAux needle (c :: t) i =
      if needle.isPrefixOf (c :: t) then some i else pyFindAux needle t (i + 1) := by
  rfl

lemma findMarker (ds : List Char) :
    pyFindAux ecMarker (canonReply ds) 0 = some 1 := by
  have hq : ecMarker.isPrefixOf
      ('\x7b' :: (ecMarker ++ (ds ++ ['"', '\x7d']))) = false := by
    rw [ecMarker_chars]
    simp only [List.isPrefixOf]
    have hne : (('"' : Char) == '\x7b') = false := by decide
    rw [hne, Bool.false_and]
  unfold canonReply
  rw [pyFindAux_cons, hq]
  simp only [Bool.false_eq_true, if_false]
  exact pyFindAux_self ecMarker _ 1 (by rw [ecMarker_chars]; simp)

lemma pyInt_digits (ds : List Char) (hne : ds ≠ [])
    (h : ∀ c ∈ ds, c ∈ digitChars) :
    pyInt ds = some ((digitsVal ds : Int)) := by
  have hds : ∀ c ∈ ds, isPySpace c = false :=
    fun c hc => (digit_char_props (h c hc)).2.2.2.2.2.2.1
  have hstrip : stripPySpaces ds = ds := by
    unfold stripPySpaces
    have h1 : ds.dropWhile isPySpace = ds := by
      cases ds with
      | nil => rfl
      | cons c t =>
        rw [List.dropWhile_cons, hds c (List.mem_cons_self _ _)]
        simp
    rw [h1]
    have h2 : ds.reverse.dropWhile isPySpace = ds.reverse := by
      cases hr : ds.reverse with
      | nil => rfl
      | cons c t =>
        have hc : c ∈ ds := by
          rw [← List.mem_reverse, hr]
          exact List.mem_cons_self _ _
        rw [List.dropWhile_cons, hds c hc]
        simp
    rw [h2, List.reverse_reverse]
  unfold pyInt
  rw [hstrip]
  cases ds with
  | nil => exact absurd rfl hne
  | cons c t =>
    have props := digit_char_props (h c (List.mem_cons_self _ _))
    have hcore : pyIntCore (c :: t) =
        (if c = '-' then (digitsOpt t).map (fun n => -(n : Int))
         else if c = '+' then (digitsOpt t).map (fun n => (n : Int))
         else (digitsOpt (c :: t)).map (fun n => (n : Int))) := rfl
    rw [hcore, if_neg props.2.2.2.2.1, if_neg props.2.2.2.2.2.1]
    unfold digitsOpt
    have hall : (c :: t).all Char.isDigit = true :=
      List.all_eq_true.mpr (fun x hx => (digit_char_props (h x hx)).1)
    rw [hall]
    simp

lemma parseErrorCodeFast_found (recv : List Char) (i : Nat)
    (hfind : pyFindAux ecMarker recv 0 = some i) :
    parseErrorCodeFast recv =
      pyInt (pySliceTo (recv.drop (i + ecMarker.length))
        (match pyFindAux ['"'] (recv.drop (i + ecMarker.length)) 0 with
         | none => -1
         | some k => (k : Int))) := by
  unfold parseErrorCodeFast
  rw [hfind]

lemma fast_canon (ds : List Char) (h : ∀ c ∈ ds, c ∈ digitChars) :
    parseErrorCodeFast (canonReply ds) = pyInt ds := by
  rw [parseErrorCodeFast_found (canonReply ds) 1 (findMarker ds)]
  have hdrop : (canonReply ds).drop (1 + ecMarker.length) = ds ++ ['"', '\x7d'] := by
    have hcr : canonReply ds = ('\x7b' :: ecMarker) ++ (ds ++ ['"', '\x7d']) := by
      unfold canonReply
      rw [List.cons_append]
    rw [hcr]
    have hlen : 1 + ecMarker.length = ('\x7b' :: ecMarker).length := by
      rw [List.length_cons]
      omega
    rw [hlen, List.drop_left]
  rw [hdrop]
  rw [findAux_quote ds ['\x7d'] 0 (fun c hc => (digit_char_props (h c hc)).2.1)]
  have hslice : pySliceTo (ds ++ ['"', '\x7d']) (((0 + ds.length : Nat)) : Int) = ds := by
    unfold pySliceTo
    rw [if_pos (by positivity)]
    simp [List.take_left]
  rw [show (match (some (0 + ds.length) : Option Nat) with
       | none => (-1 : Int)
       | some k => (k : Int)) = ((0 + ds.length : Nat) : Int) from rfl]
  rw [hslice]

lemma parseStringBody_plain (xs : List Char) :
    ∀ (f : Nat) (r : List Char), xs.length < f →
      (∀ c ∈ xs, c ≠ '"' ∧ c ≠ '\\' ∧ 32 ≤ c.toNat) →
      parseStringBody f (xs ++ '"' :: r) = some (xs, r) := by
  induction xs with
  | nil =>
    intro f r hf _
    cases f with
    | zero => omega
    | succ f' =>
      show parseStringBody (f' + 1) ('"' :: r) = some ([], r)
      have : parseStringBody (f' + 1) ('"' :: r) = some ([], r) := rfl
      exact this
  | cons c t ih =>
    intro f r hf h
    obtain ⟨h1, h2, h3⟩ := h c (List.mem_cons_self _ _)
    cases f with
    | zero => omega
    | succ f' =>
      rw [List.cons_append]
      have hstep : parseStringBody (f' + 1) (c :: (t ++ '"' :: r)) =
          (if c = '"' then some ([], t ++ '"' :: r)
           else if c = '\\' then
             match t ++ '"' :: r with
             | [] => none
             | e :: rest2 =>
               if e = 'u' then
                 match rest2 with
                 | h1 :: h2 :: h3 :: h4 :: rest3 =>
                   match hexVal h1, hexVal h2, hexVal h3, hexVal h4 with
                   | some a, some b, some c2, some d =>
                     (parseStringBody f' rest3).map
                       (fun p => (Char.ofNat (((a * 16 + b) * 16 + c2) * 16 + d) :: p.1, p.2))
                   | _, _, _, _ => none
                 | _ => none
               else
                 match escChar e with
                 | some ec => (parseStringBody f' rest2).map (fun p => (ec :: p.1, p.2))
                 | none => none
           else if c.toNat < 32 then none
           else (parseStringBody f' (t ++ '"' :: r)).map (fun p => (c :: p.1, p.2))) := rfl
      rw [hstep, if_neg h1, if_neg h2, if_neg (by omega : ¬ c.toNat < 32)]
      rw [ih f' r (by simp at hf ⊢; omega)
        (fun x hx => h x (List.mem_cons_of_mem _ hx))]
      rfl

lemma parseString_plain (xs r : List Char)
    (h : ∀ c ∈ xs, c ≠ '"' ∧ c ≠ '\\' ∧ 32 ≤ c.toNat) :
    parseString (xs ++ '"' :: r) = some (xs, r) := by
  unfold parseString
  exact parseStringBody_plain xs _ r (by simp [List.length_append]; omega) h

lemma parseValue_canon (ds : List Char) (h : ∀ c ∈ ds, c ∈ digitChars)
    (f : Nat) :
    parseValue (f + 4) (canonReply ds) =
      some (JVal.jobj [(ecKey, JVal.jstr ds)], []) := by
  have hPS : parseString (ds ++ '"' :: ['\x7d']) = some (ds, ['\x7d']) :=
    parseString_plain ds ['\x7d']
      (fun c hc =>
        ⟨(digit_char_props (h c hc)).2.1, (digit_char_props (h c hc)).2.2.1,
         (digit_char_props (h c hc)).2.2.2.1⟩)
  have hv : parseValue (f + 1) (' ' :: '"' :: (ds ++ ['"', '\x7d'])) =
      some (JVal.jstr ds, ['\x7d']) := by
    have hred : parseValue (f + 1) (' ' :: '"' :: (ds ++ ['"', '\x7d'])) =
        (parseString (ds ++ '"' :: ['\x7d'])).map
          (fun p => (JVal.jstr p.1, p.2)) := rfl
    rw [hred, hPS]
    rfl
  have htop : parseValue (f + 4) (canonReply ds) =
      match parseValue (f + 1) (' ' :: '"' :: (ds ++ ['"', '\x7d'])) with
      | none => none
      | some (v, r3) =>
        match skipWs r3 with
        | [] => none
        | c3 :: r4 =>
          if c3 = ',' then parseMembers (f + 1) r4 ([] ++ [(ecKey, v)])
          else if c3 = '\x7d' then some (JVal.jobj ([] ++ [(ecKey, v)]), r4)
          else none := rfl
  rw [htop, hv]
  rfl

lemma jsonLoads_canon (ds : List Char) (h : ∀ c ∈ ds, c ∈ digitChars) :
    jsonLoads (canonReply ds) = some (JVal.jobj [(ecKey, JVal.jstr ds)]) := by
  unfold jsonLoads
  have hfuel : 3 * (canonReply ds).length + 8 =
      (3 * (canonReply ds).length + 4) + 4 := by
    omega
  rw [hfuel, parseValue_canon ds h (3 * (canonReply ds).length + 4)]
  rfl

lemma processStatus_canon (ds : List Char) (hne : ds ≠ [])
    (h : ∀ c ∈ ds, c ∈ digitChars) :
    processStatus (canonReply ds) = some ((digitsVal ds : Int)) := by
  have hred : processCore (canonReply ds) =
      match pyInt ds with
      | none => Except.error PyExn.valueError
      | some ec => Except.ok (ec, JVal.jobj [(ecKey, JVal.jstr ds)]) := by
    unfold processCore
    rw [jsonLoads_canon ds h]
    rfl
  unfold processStatus
  rw [hred, pyInt_digits ds hne h]

/-- C1 (amended): for every status-bearing reply in the controller's
wire format — the `errorCode` field rendered with exactly one space
after the colon and a quoted nonempty digit string, i.e. replies of the
shape `{"errorCode": "<digits>"}` — the fast scan and the structured
view's status extraction return the same integer, the numeric value of
the digits. -/
theorem C1_canonical_agreement (ds : List Char) (hne : ds ≠ [])
    (h : ∀ c ∈ ds, c ∈ digitChars) :
    parseErrorCodeFast (canonReply ds) = some ((digitsVal ds : Int)) ∧
    processStatus (canonReply ds) = some ((digitsVal ds : Int)) := by
  refine ⟨?_, processStatus_canon ds hne h⟩
  rw [fast_canon ds h, pyInt_digits ds hne h]

/-- Witness for C1 (amended) at the concrete digit string `42`. -/
theorem C1_canonical_agreement_witness :
    (['4', '2'] : List Char) ≠ [] ∧
    (∀ c ∈ (['4', '2'] : List Char), c ∈ digitChars) ∧
    parseErrorCodeFast (canonReply ['4', '2']) = some 42 ∧
    processStatus (canonReply ['4', '2']) = some 42 := by
  have h := C1_canonical_agreement ['4', '2'] (by decide) (by decide)
  exact ⟨by decide, by decide, h.1, h.2⟩
